import Mathlib

/-!
# SysTick tick source of the STM32 port

A shallow embedding of `arch/arm/src/stm32/stm32_timerisr.c`: the reload
constant `SYSTICK_RELOAD`, its compile-time range check, the start-up routine
`up_timer_initialize` and the two `CONFIG_CLOCK_ADJTIME` entry points
`up_adj_timer_period` and `up_get_timer_period`.

Conventions.

* Registers hold 32-bit words, represented as natural numbers; `putreg32`
  stores its argument reduced modulo `2^32`.
* `long long` values are integers; a `long long` result is reduced to the
  two's-complement 64-bit range by `wrap64` (what the ARM targets compute
  where C leaves signed overflow undefined), a conversion to `uint32_t` is
  `toU32`.  The 32-bit word stored on line 133 is the exact sum modulo `2^32`
  either way (`period_word_nonzero`).
* The constants the file takes from headers outside it (`board.h`, `time.h`,
  `nvic.h`) are fields of `Config`.
* The file is embedded for the build in which `CONFIG_CLOCK_ADJTIME` is
  defined and `CONFIG_ARMV7M_SYSTICK`/`CONFIG_TIMER_ARCH` are not both
  defined, which is the branch that programs the SysTick registers itself.
-/

namespace Stm32Timerisr

/-! ## Configuration constants -/

/-- Constants supplied by headers outside the translated file: the HCLK
frequency (`board.h`), the tick rate `CLK_TCK` (`time.h`) and the NVIC field
layout (`nvic.h`). -/
structure Config where
  STM32_HCLK_FREQUENCY : Nat
  CLK_TCK : Nat
  NVIC_SYSH_PRIORITY_PR15_MASK : Nat
  NVIC_SYSH_PRIORITY_PR15_SHIFT : Nat
  NVIC_SYSH_PRIORITY_DEFAULT : Nat
  NVIC_SYSTICK_CTRL_CLKSOURCE : Nat
  NVIC_SYSTICK_CTRL_TICKINT : Nat
  NVIC_SYSTICK_CTRL_ENABLE : Nat
  deriving DecidableEq, Repr

/-- Line 57 undefines `CONFIG_STM32_SYSTICK_HCLKd8`, so the `#else` branch of
lines 60-64 is the one compiled: `SYSTICK_CLOCK` is `STM32_HCLK_FREQUENCY`. -/
def SYSTICK_CLOCK (cfg : Config) : Nat :=
  cfg.STM32_HCLK_FREQUENCY

/-- Line 66: `((SYSTICK_CLOCK / CLK_TCK) - 1)`.  The quotient of two
non-negative constants truncates; the subtraction is signed.  For
`CLK_TCK <= SYSTICK_CLOCK` the value is non-negative and does not depend on
the signedness of the constants. -/
def SYSTICK_RELOAD (cfg : Config) : Int :=
  ((SYSTICK_CLOCK cfg / cfg.CLK_TCK : Nat) : Int) - 1

/-- Line 72: the reload field is 24 bits wide. -/
def SYSTICK_MAX : Nat := 0x00ffffff

/-- Diagnostics that stop the build of the file. -/
inductive BuildError where
  | divisionByZero
  | reloadExceedsRange
  deriving DecidableEq, Repr

/-- Lines 73-75: `#if SYSTICK_RELOAD > SYSTICK_MAX` / `#error`.  A zero
`CLK_TCK` makes the controlling expression divide by zero, which the
preprocessor rejects as well. -/
def reloadCheck (cfg : Config) : Except BuildError Unit :=
  if cfg.CLK_TCK = 0 then .error .divisionByZero
  else if SYSTICK_RELOAD cfg > (SYSTICK_MAX : Int) then .error .reloadExceedsRange
  else .ok ()

/-! ## Machine words -/

/-- Conversion of an integer value to `uint32_t`. -/
def toU32 (x : Int) : Nat :=
  (x % 4294967296).toNat

/-- Reduction of an integer to the range of `long long`
(two's complement, 64 bits). -/
def wrap64 (x : Int) : Int :=
  (x + 9223372036854775808) % 18446744073709551616 - 9223372036854775808

/-! ## Hardware state -/

/-- The memory-mapped registers the file names, and the SysTick current-value
register, which it never accesses. -/
inductive Reg where
  | NVIC_SYSH12_15_PRIORITY
  | NVIC_SYSTICK_CTRL
  | NVIC_SYSTICK_RELOAD
  | NVIC_SYSTICK_CURRENT
  deriving DecidableEq, Repr

/-- Register contents together with the state of the interrupt-dispatch
collaborator for `STM32_IRQ_SYSTICK`: whether `stm32_timerisr` is attached
and whether the interrupt line is enabled. -/
structure State where
  sysh12_15_priority : Nat
  systick_ctrl : Nat
  systick_reload : Nat
  systick_current : Nat
  systick_attached : Bool
  systick_irq_enabled : Bool
  deriving DecidableEq, Repr

/-- Read of a 32-bit register. -/
def getreg32 (a : Reg) (s : State) : Nat :=
  match a with
  | .NVIC_SYSH12_15_PRIORITY => s.sysh12_15_priority
  | .NVIC_SYSTICK_CTRL => s.systick_ctrl
  | .NVIC_SYSTICK_RELOAD => s.systick_reload
  | .NVIC_SYSTICK_CURRENT => s.systick_current

/-- Write of a 32-bit register; the value is a `uint32_t`. -/
def putreg32 (v : Nat) (a : Reg) (s : State) : State :=
  match a with
  | .NVIC_SYSH12_15_PRIORITY => { s with sysh12_15_priority := v % 4294967296 }
  | .NVIC_SYSTICK_CTRL => { s with systick_ctrl := v % 4294967296 }
  | .NVIC_SYSTICK_RELOAD => { s with systick_reload := v % 4294967296 }
  | .NVIC_SYSTICK_CURRENT => { s with systick_current := v % 4294967296 }

/-- Effect of `irq_attach(STM32_IRQ_SYSTICK, stm32_timerisr, NULL)`. -/
def irq_attach (s : State) : State :=
  { s with systick_attached := true }

/-- Effect of `up_enable_irq(STM32_IRQ_SYSTICK)`. -/
def up_enable_irq (s : State) : State :=
  { s with systick_irq_enabled := true }

/-! ## The functions of the file -/

/-- Lines 124-131: the tick increment `period_inc` computed from the requested
microsecond increment; the product and the difference are `long long`. -/
def period_inc (cfg : Config) (period_inc_usec : Int) : Int :=
  if period_inc_usec = 0 then 0
  else wrap64 (wrap64 (((SYSTICK_CLOCK cfg / 1000000 : Nat) : Int) * period_inc_usec) - 1)

/-- Lines 119-143: `up_adj_timer_period`.  The sum of line 133 is formed in
`long long` and stored in the `uint32_t` local `period`; the only comparison
is the one against `SYSTICK_MAX`. -/
def up_adj_timer_period (cfg : Config) (period_inc_usec : Int) (s : State) : State :=
  let period : Nat := toU32 (wrap64 (SYSTICK_RELOAD cfg + period_inc cfg period_inc_usec))
  let period : Nat := if period > SYSTICK_MAX then SYSTICK_MAX else period
  putreg32 period .NVIC_SYSTICK_RELOAD s

/-- Lines 156-163: `up_get_timer_period`.  The result stored through
`period_usec` is returned together with the (untouched) hardware state; the
quotient is formed in 32-bit unsigned arithmetic, and a zero divisor has no
result. -/
def up_get_timer_period (cfg : Config) (s : State) : Option (Int × State) :=
  let period : Nat := getreg32 .NVIC_SYSTICK_RELOAD s
  if SYSTICK_CLOCK cfg / 1000000 = 0 then none
  else some ((((period + 1) % 4294967296 / (SYSTICK_CLOCK cfg / 1000000) : Nat) : Int), s)

/-- Lines 176-219: `up_timer_initialize`, branch of lines 202-217. -/
def up_timer_initialize (cfg : Config) (s : State) : State :=
  let regval : Nat := getreg32 .NVIC_SYSH12_15_PRIORITY s
  let regval : Nat := regval &&& (4294967295 ^^^ (cfg.NVIC_SYSH_PRIORITY_PR15_MASK % 4294967296))
  let regval : Nat :=
    regval ||| (cfg.NVIC_SYSH_PRIORITY_DEFAULT <<< cfg.NVIC_SYSH_PRIORITY_PR15_SHIFT)
  let s := putreg32 regval .NVIC_SYSH12_15_PRIORITY s
  let s := putreg32 (toU32 (SYSTICK_RELOAD cfg)) .NVIC_SYSTICK_RELOAD s
  let s := irq_attach s
  let s := putreg32
    (cfg.NVIC_SYSTICK_CTRL_CLKSOURCE ||| cfg.NVIC_SYSTICK_CTRL_TICKINT |||
      cfg.NVIC_SYSTICK_CTRL_ENABLE) .NVIC_SYSTICK_CTRL s
  up_enable_irq s

/-- The program as a whole: an image exists only when the compile-time check
of lines 73-75 passes, and its start-up code then runs the initialisation
routine on the reset state of the hardware. -/
def start_up (cfg : Config) (s : State) : Except BuildError State :=
  match reloadCheck cfg with
  | .error e => .error e
  | .ok () => .ok ( up_timer_initialize cfg s)

/-- A run of adjustment requests issued one after the other. -/
def adjustAll (cfg : Config) (deltas : List Int) (s : State) : State :=
  deltas.foldl (fun st d => up_adj_timer_period cfg d st) s

/-! ## Worked example of the specification -/

/-- HCLK at 16 MHz and 100 ticks per second, with the ARMv7-M layout of the
system-handler priority and SysTick control fields. -/
def exampleConfig : Config where
  STM32_HCLK_FREQUENCY := 16000000
  CLK_TCK := 100
  NVIC_SYSH_PRIORITY_PR15_MASK := 0xff000000
  NVIC_SYSH_PRIORITY_PR15_SHIFT := 24
  NVIC_SYSH_PRIORITY_DEFAULT := 0x80
  NVIC_SYSTICK_CTRL_CLKSOURCE := 4
  NVIC_SYSTICK_CTRL_TICKINT := 2
  NVIC_SYSTICK_CTRL_ENABLE := 1

/-- Hardware state at reset: all registers zero, nothing attached. -/
def resetState : State where
  sysh12_15_priority := 0
  systick_ctrl := 0
  systick_reload := 0
  systick_current := 0
  systick_attached := false
  systick_irq_enabled := false

/-- A configuration whose reload value does not fit: 4 GHz at one tick per
second. -/
def oversizedConfig : Config :=
  { exampleConfig with STM32_HCLK_FREQUENCY := 4000000000, CLK_TCK := 1 }

/-! ## The quantities of the specification -/

/-- The tick increment of the specification for a non-zero request,
`(HardwareClockFrequency / 1_000_000) * deltaMicroseconds - 1`, over the
unbounded integers. -/
def deltaTicks (cfg : Config) (deltaMicroseconds : Int) : Int :=
  ((cfg.STM32_HCLK_FREQUENCY / 1000000 : Nat) : Int) * deltaMicroseconds - 1

/-- The candidate reload of the specification for a non-zero request,
`BaseReloadValue + deltaTicks`, over the unbounded integers. -/
def candidateReload (cfg : Config) (deltaMicroseconds : Int) : Int :=
  SYSTICK_RELOAD cfg + deltaTicks cfg deltaMicroseconds

/-- The nominal period of the specification in microseconds,
`(BaseReloadValue + 1) / (HardwareClockFrequency / 1_000_000)`. -/
def nominalPeriod (cfg : Config) : Int :=
  (SYSTICK_RELOAD cfg + 1) / ((cfg.STM32_HCLK_FREQUENCY / 1000000 : Nat) : Int)

/-! ## The countdown of the timer hardware -/

/-- Modelled from the spec: the countdown-and-autoreload behaviour of the timer
hardware, which is not software of the repository.  One clock pulse: on expiry
(current value zero) the hardware reloads the programmed reload value, fires
(`true`) and continues counting; otherwise it counts down by one. -/
def countdownStep (s : State) : State × Bool :=
  if s.systick_current = 0 then ({ s with systick_current := s.systick_reload }, true)
  else ({ s with systick_current := s.systick_current - 1 }, false)

/-- Modelled from the spec: `n` clock pulses of the countdown, with the list of
fire flags, one per pulse. -/
def countdownRun : Nat → State → State × List Bool
  | 0, s => (s, [])
  | n + 1, s => ((countdownRun n (countdownStep s).1).1,
      (countdownStep s).2 :: (countdownRun n (countdownStep s).1).2)

/-! ## Arithmetic of the machine words -/

theorem toU32_wrap64 (x : Int) : toU32 (wrap64 x) = toU32 x := by
  unfold toU32 wrap64
  omega

theorem toU32_lt (x : Int) : toU32 x < 4294967296 := by
  unfold toU32
  omega

theorem toU32_of_range (x : Int) (h0 : 0 ≤ x) (h1 : x < 4294967296) :
    ((toU32 x : Nat) : Int) = x := by
  unfold toU32
  omega

theorem toU32_add_wrap64 (a b : Int) : toU32 (a + wrap64 b) = toU32 (a + b) := by
  unfold toU32 wrap64
  omega

theorem toU32_wrap64_sub_one (b : Int) : toU32 (wrap64 (wrap64 b - 1)) = toU32 (b - 1) := by
  unfold toU32 wrap64
  omega

/-- The 32-bit word compared with `SYSTICK_MAX` on line 137 is the candidate
of the specification reduced modulo `2^32`: the intermediate 64-bit
reductions do not show. -/
theorem period_word_nonzero (cfg : Config) (d : Int) (hd : d ≠ 0) :
    toU32 (wrap64 (SYSTICK_RELOAD cfg + period_inc cfg d)) = toU32 (candidateReload cfg d) := by
  rw [toU32_wrap64]
  unfold period_inc candidateReload deltaTicks SYSTICK_CLOCK
  rw [if_neg hd, toU32_add_wrap64]
  generalize ((cfg.STM32_HCLK_FREQUENCY / 1000000 : Nat) : Int) * d = m
  unfold toU32 wrap64
  omega

theorem period_word_zero (cfg : Config) :
    toU32 (wrap64 (SYSTICK_RELOAD cfg + period_inc cfg 0)) = toU32 (SYSTICK_RELOAD cfg) := by
  rw [toU32_wrap64]
  simp [period_inc]

/-- The value `up_adj_timer_period` leaves in the reload register. -/
theorem adj_reload (cfg : Config) (d : Int) (s : State) :
    (up_adj_timer_period cfg d s).systick_reload =
      min (toU32 (wrap64 (SYSTICK_RELOAD cfg + period_inc cfg d))) SYSTICK_MAX := by
  have hlt := toU32_lt (wrap64 (SYSTICK_RELOAD cfg + period_inc cfg d))
  simp only [up_adj_timer_period, putreg32, SYSTICK_MAX] at *
  split <;> omega

theorem adj_reload_le (cfg : Config) (d : Int) (s : State) :
    (up_adj_timer_period cfg d s).systick_reload ≤ SYSTICK_MAX := by
  rw [adj_reload]
  exact Nat.min_le_right _ _

/-- The adjustment writes the reload register and nothing else. -/
theorem adj_frame (cfg : Config) (d : Int) (s : State) :
    up_adj_timer_period cfg d s =
      { s with systick_reload := (up_adj_timer_period cfg d s).systick_reload } := by
  simp [up_adj_timer_period, putreg32]

theorem init_reload (cfg : Config) (s : State) :
    ( up_timer_initialize cfg s).systick_reload = toU32 (SYSTICK_RELOAD cfg) := by
  have hlt := toU32_lt (SYSTICK_RELOAD cfg)
  simp only [ up_timer_initialize, putreg32, irq_attach, up_enable_irq]
  omega

/-- A non-zero request whose candidate lies in `[0, 2^24 - 1]` leaves the
candidate in the reload register. -/
theorem adj_reload_in_range (cfg : Config) (d : Int) (s : State) (hd : d ≠ 0)
    (h0 : 0 ≤ candidateReload cfg d) (h1 : candidateReload cfg d ≤ 2 ^ 24 - 1) :
    (((up_adj_timer_period cfg d s).systick_reload : Nat) : Int) = candidateReload cfg d := by
  rw [adj_reload, period_word_nonzero cfg d hd]
  have hw := toU32_of_range (candidateReload cfg d) h0 (by omega)
  simp only [SYSTICK_MAX]
  omega

/-- A zero request leaves the base reload in the reload register when the
base reload lies in `[0, 2^24 - 1]`. -/
theorem adj_reload_zero (cfg : Config) (s : State)
    (hlo : 0 ≤ SYSTICK_RELOAD cfg) (hhi : SYSTICK_RELOAD cfg ≤ 2 ^ 24 - 1) :
    (((up_adj_timer_period cfg 0 s).systick_reload : Nat) : Int) = SYSTICK_RELOAD cfg := by
  rw [adj_reload, period_word_zero]
  have hw := toU32_of_range (SYSTICK_RELOAD cfg) hlo (by omega)
  simp only [SYSTICK_MAX]
  omega

/-- The cap is effective for every candidate that fits a 32-bit word: a
candidate in `(2^24 - 1, 2^32 - 1]` is written as `2^24 - 1`. -/
theorem adj_reload_capped (cfg : Config) (d : Int) (s : State) (hd : d ≠ 0)
    (h0 : 2 ^ 24 - 1 < candidateReload cfg d) (h1 : candidateReload cfg d < 2 ^ 32) :
    getreg32 .NVIC_SYSTICK_RELOAD (up_adj_timer_period cfg d s) = SYSTICK_MAX := by
  show (up_adj_timer_period cfg d s).systick_reload = _
  rw [adj_reload, period_word_nonzero cfg d hd]
  have hw := toU32_of_range (candidateReload cfg d) (by omega) (by omega)
  simp only [SYSTICK_MAX]
  omega

/-- The period read back from a reload register whose content plus one fits
32 bits, for a timer clock of at least 1 MHz. -/
theorem get_period_value (cfg : Config) (s : State)
    (hclk : 1000000 ≤ cfg.STM32_HCLK_FREQUENCY) (hreg : s.systick_reload + 1 < 2 ^ 32) :
    up_get_timer_period cfg s
      = some ((((s.systick_reload + 1) / (cfg.STM32_HCLK_FREQUENCY / 1000000) : Nat) : Int), s) := by
  have hk : ¬ (cfg.STM32_HCLK_FREQUENCY / 1000000 = 0) := by omega
  have hmod : (s.systick_reload + 1) % 4294967296 = s.systick_reload + 1 :=
    Nat.mod_eq_of_lt (by omega)
  simp only [up_get_timer_period, getreg32, SYSTICK_CLOCK, if_neg hk, hmod]

/-! ## The countdown -/

theorem countdownRun_add (m n : Nat) (s : State) :
    countdownRun (m + n) s
      = ((countdownRun n (countdownRun m s).1).1,
          (countdownRun m s).2 ++ (countdownRun n (countdownRun m s).1).2) := by
  induction m generalizing s with
  | zero => simp [countdownRun]
  | succ m ih =>
    have h : m + 1 + n = (m + n) + 1 := by omega
    rw [h]
    simp [countdownRun, ih]

/-- From a current value `c` the countdown fires at pulse `c + 1` and not
before, and the counter then holds the programmed reload value. -/
theorem countdownRun_to_expiry (c : Nat) (s : State) (hc : s.systick_current = c) :
    countdownRun (c + 1) s
      = ({ s with systick_current := s.systick_reload }, List.replicate c false ++ [true]) := by
  induction c generalizing s with
  | zero => simp [countdownRun, countdownStep, hc]
  | succ c ih =>
    have hne : ¬ (s.systick_current = 0) := by omega
    have hstep : countdownStep s = ({ s with systick_current := c }, false) := by
      simp [countdownStep, hne, hc]
    have hrec := ih { s with systick_current := c } rfl
    rw [countdownRun, hstep, hrec]
    simp [List.replicate_succ]

/-! ## Claims -/

/-- C1: when `CLK_TCK > 0` and `STM32_HCLK_FREQUENCY >= CLK_TCK`, the base
reload `SYSTICK_RELOAD` is `STM32_HCLK_FREQUENCY / CLK_TCK - 1` with truncating
division; `up_timer_initialize` leaves the low 32 bits of it in the reload
register, which is the value itself whenever it passes the range check; for
16 MHz and 100 ticks per second the value is 159999, below `2^24 - 1`. -/
theorem C1_base_reload_value (cfg : Config) (s : State)
    (htick : 0 < cfg.CLK_TCK) (hclock : cfg.CLK_TCK ≤ cfg.STM32_HCLK_FREQUENCY) :
    SYSTICK_RELOAD cfg = ((cfg.STM32_HCLK_FREQUENCY / cfg.CLK_TCK - 1 : Nat) : Int)
    ∧ getreg32 .NVIC_SYSTICK_RELOAD ( up_timer_initialize cfg s)
        = (cfg.STM32_HCLK_FREQUENCY / cfg.CLK_TCK - 1) % 4294967296
    ∧ (SYSTICK_RELOAD cfg ≤ (SYSTICK_MAX : Int) →
        getreg32 .NVIC_SYSTICK_RELOAD ( up_timer_initialize cfg s)
          = cfg.STM32_HCLK_FREQUENCY / cfg.CLK_TCK - 1)
    ∧ SYSTICK_RELOAD exampleConfig = 159999
    ∧ getreg32 .NVIC_SYSTICK_RELOAD ( up_timer_initialize exampleConfig s) = 159999
    ∧ (159999 : Int) < 2 ^ 24 - 1 := by
  have hq : 1 ≤ cfg.STM32_HCLK_FREQUENCY / cfg.CLK_TCK :=
    (Nat.one_le_div_iff htick).mpr hclock
  have hbase : SYSTICK_RELOAD cfg = ((cfg.STM32_HCLK_FREQUENCY / cfg.CLK_TCK - 1 : Nat) : Int) := by
    unfold SYSTICK_RELOAD SYSTICK_CLOCK
    omega
  have hreg : getreg32 .NVIC_SYSTICK_RELOAD ( up_timer_initialize cfg s)
      = (cfg.STM32_HCLK_FREQUENCY / cfg.CLK_TCK - 1) % 4294967296 := by
    show ( up_timer_initialize cfg s).systick_reload = _
    rw [init_reload, hbase]
    unfold toU32
    omega
  have hex : getreg32 .NVIC_SYSTICK_RELOAD ( up_timer_initialize exampleConfig s) = 159999 := by
    show ( up_timer_initialize exampleConfig s).systick_reload = _
    rw [init_reload]
    decide
  refine ⟨hbase, hreg, ?_, by decide, hex, by norm_num⟩
  intro hmax
  rw [hreg]
  rw [hbase] at hmax
  simp only [SYSTICK_MAX] at hmax
  omega

/-- Witness of C1 at the 16 MHz / 100 Hz configuration. -/
theorem C1_base_reload_value_witness :
    SYSTICK_RELOAD exampleConfig = ((16000000 / 100 - 1 : Nat) : Int)
    ∧ getreg32 .NVIC_SYSTICK_RELOAD ( up_timer_initialize exampleConfig resetState) = 159999 :=
  ⟨(C1_base_reload_value exampleConfig resetState (by decide) (by decide)).1,
   (C1_base_reload_value exampleConfig resetState (by decide) (by decide)).2.2.1 (by decide)⟩

/-- C2: when `CLK_TCK > 0` and `STM32_HCLK_FREQUENCY >= CLK_TCK`, the
compile-time check stops the build with the range diagnostic whenever
`STM32_HCLK_FREQUENCY / CLK_TCK - 1 > 2^24 - 1`, so that no start-up code runs,
no register is written and no interrupt is armed; it passes whenever the value
lies in `[0, 2^24 - 1]`, and start-up then runs `up_timer_initialize`. -/
theorem C2_range_check (cfg : Config) (s : State)
    (htick : 0 < cfg.CLK_TCK) (_hclock : cfg.CLK_TCK ≤ cfg.STM32_HCLK_FREQUENCY) :
    ((((cfg.STM32_HCLK_FREQUENCY / cfg.CLK_TCK : Nat) : Int) - 1 > 2 ^ 24 - 1) →
        reloadCheck cfg = .error .reloadExceedsRange
        ∧ start_up cfg s = .error .reloadExceedsRange)
    ∧ ((0 ≤ ((cfg.STM32_HCLK_FREQUENCY / cfg.CLK_TCK : Nat) : Int) - 1
          ∧ ((cfg.STM32_HCLK_FREQUENCY / cfg.CLK_TCK : Nat) : Int) - 1 ≤ 2 ^ 24 - 1) →
        reloadCheck cfg = .ok ()
        ∧ start_up cfg s = .ok ( up_timer_initialize cfg s)) := by
  have hne : cfg.CLK_TCK ≠ 0 := by omega
  constructor
  · intro h
    have hc : reloadCheck cfg = .error .reloadExceedsRange := by
      unfold reloadCheck
      rw [if_neg hne, if_pos]
      simp only [SYSTICK_RELOAD, SYSTICK_CLOCK, SYSTICK_MAX]
      omega
    exact ⟨hc, by simp [start_up, hc]⟩
  · rintro ⟨_, h⟩
    have hc : reloadCheck cfg = .ok () := by
      unfold reloadCheck
      rw [if_neg hne, if_neg]
      simp only [SYSTICK_RELOAD, SYSTICK_CLOCK, SYSTICK_MAX]
      omega
    exact ⟨hc, by simp [start_up, hc]⟩

/-- Witness of C2: the oversized configuration is rejected, the example
configuration is accepted. -/
theorem C2_range_check_witness :
    start_up oversizedConfig resetState = .error .reloadExceedsRange
    ∧ start_up exampleConfig resetState
        = .ok ( up_timer_initialize exampleConfig resetState) :=
  ⟨((C2_range_check oversizedConfig resetState (by decide) (by decide)).1 (by decide)).2,
   ((C2_range_check exampleConfig resetState (by decide) (by decide)).2
      ⟨by decide, by decide⟩).2⟩

/-- C3: for a non-zero request whose candidate
`SYSTICK_RELOAD + (STM32_HCLK_FREQUENCY / 1000000) * period_inc_usec - 1` lies
in `[0, 2^24 - 1]`, `up_adj_timer_period` leaves exactly that candidate in the
reload register; a negative request leaves less than the base reload, a
positive one worth at least two timer clocks leaves more. -/
theorem C3_adjust_in_range (cfg : Config) (d : Int) (s : State) (hd : d ≠ 0)
    (h0 : 0 ≤ candidateReload cfg d) (h1 : candidateReload cfg d ≤ 2 ^ 24 - 1) :
    ((getreg32 .NVIC_SYSTICK_RELOAD (up_adj_timer_period cfg d s) : Nat) : Int)
        = SYSTICK_RELOAD cfg + ((cfg.STM32_HCLK_FREQUENCY / 1000000 : Nat) : Int) * d - 1
    ∧ (d < 0 →
        ((getreg32 .NVIC_SYSTICK_RELOAD (up_adj_timer_period cfg d s) : Nat) : Int)
          < SYSTICK_RELOAD cfg)
    ∧ (0 < d → 2 ≤ ((cfg.STM32_HCLK_FREQUENCY / 1000000 : Nat) : Int) * d →
        SYSTICK_RELOAD cfg
          < ((getreg32 .NVIC_SYSTICK_RELOAD (up_adj_timer_period cfg d s) : Nat) : Int)) := by
  have hreg : ((getreg32 .NVIC_SYSTICK_RELOAD (up_adj_timer_period cfg d s) : Nat) : Int)
      = candidateReload cfg d := by
    exact adj_reload_in_range cfg d s hd h0 h1
  have hk : (0 : Int) ≤ ((cfg.STM32_HCLK_FREQUENCY / 1000000 : Nat) : Int) := Int.ofNat_nonneg _
  refine ⟨?_, ?_, ?_⟩
  · rw [hreg]
    unfold candidateReload deltaTicks
    ring
  · intro hneg
    rw [hreg]
    unfold candidateReload deltaTicks
    have := mul_nonpos_of_nonneg_of_nonpos hk (le_of_lt hneg)
    omega
  · intro _ h2
    rw [hreg]
    unfold candidateReload deltaTicks
    omega

/-- Witness of C3: 16 MHz, 100 Hz, a request of 5 microseconds. -/
theorem C3_adjust_in_range_witness :
    ((getreg32 .NVIC_SYSTICK_RELOAD (up_adj_timer_period exampleConfig 5 resetState) : Nat) : Int)
      = SYSTICK_RELOAD exampleConfig
          + ((exampleConfig.STM32_HCLK_FREQUENCY / 1000000 : Nat) : Int) * 5 - 1 :=
  (C3_adjust_in_range exampleConfig 5 resetState (by decide) (by decide) (by decide)).1

/-- C4: the cap of `up_adj_timer_period` is applied to the 32-bit word, so a
candidate of `2^32` or more escapes it.  At 16 MHz and 100 Hz the request
of 268425457 microseconds has the candidate `2^32 + 14`, above `2^24 - 1`, and
the reload register is left at 14 instead of `2^24 - 1`. -/
theorem C4_cap_missed_past_32_bits :
    candidateReload exampleConfig 268425457 = 4294967310
    ∧ (2 : Int) ^ 24 - 1 < candidateReload exampleConfig 268425457
    ∧ getreg32 .NVIC_SYSTICK_RELOAD
        (up_adj_timer_period exampleConfig 268425457
          ( up_timer_initialize exampleConfig resetState)) = 14
    ∧ getreg32 .NVIC_SYSTICK_RELOAD
        (up_adj_timer_period exampleConfig 268425457
          ( up_timer_initialize exampleConfig resetState)) ≠ 2 ^ 24 - 1 := by
  decide

/-- C5, as the claim states it, fails: at 16 MHz and 100 Hz the request of
-10001 microseconds has the candidate -18, below 0, and the reload register is
left at `2^24 - 1`, not at 0. -/
theorem C5_no_lower_clamp_counterexample :
    (-10001 : Int) < 0
    ∧ candidateReload exampleConfig (-10001) = -18
    ∧ getreg32 .NVIC_SYSTICK_RELOAD
        (up_adj_timer_period exampleConfig (-10001)
          ( up_timer_initialize exampleConfig resetState)) = 16777215
    ∧ getreg32 .NVIC_SYSTICK_RELOAD
        (up_adj_timer_period exampleConfig (-10001)
          ( up_timer_initialize exampleConfig resetState)) ≠ 0 := by
  decide

/-- C5, amended: `up_adj_timer_period` applies the upper cap only and has no
lower clamp.  For every negative request whose candidate is below 0 the value
left in the reload register lies in `[0, 2^24 - 1]`. -/
theorem C5_negative_candidate_stays_in_range (cfg : Config) (d : Int) (s : State)
    (_hd : d < 0) (_hneg : candidateReload cfg d < 0) :
    0 ≤ getreg32 .NVIC_SYSTICK_RELOAD (up_adj_timer_period cfg d s)
    ∧ getreg32 .NVIC_SYSTICK_RELOAD (up_adj_timer_period cfg d s) ≤ 2 ^ 24 - 1 := by
  have hle := adj_reload_le cfg d s
  exact ⟨Nat.zero_le _, by simpa [SYSTICK_MAX] using hle⟩

/-- Witness of C5 amended: the request of -10001 microseconds at 16 MHz and
100 Hz. -/
theorem C5_negative_candidate_stays_in_range_witness :
    candidateReload exampleConfig (-10001) < 0
    ∧ getreg32 .NVIC_SYSTICK_RELOAD (up_adj_timer_period exampleConfig (-10001) resetState)
        ≤ 2 ^ 24 - 1 :=
  ⟨by decide,
   (C5_negative_candidate_stays_in_range exampleConfig (-10001) resetState (by decide)
      (by decide)).2⟩

/-- C6: under a valid configuration (`0 <= SYSTICK_RELOAD <= 2^24 - 1`), after
`up_timer_initialize` and after any finite run of `up_adj_timer_period` calls
with arbitrary signed requests, the reload register holds a value in
`[0, 2^24 - 1]`; taken over all runs, this covers every value written on the
way. -/
theorem C6_reload_register_range (cfg : Config) (s : State) (deltas : List Int)
    (hlo : 0 ≤ SYSTICK_RELOAD cfg) (hhi : SYSTICK_RELOAD cfg ≤ (SYSTICK_MAX : Int)) :
    0 ≤ getreg32 .NVIC_SYSTICK_RELOAD (adjustAll cfg deltas ( up_timer_initialize cfg s))
    ∧ getreg32 .NVIC_SYSTICK_RELOAD (adjustAll cfg deltas ( up_timer_initialize cfg s))
        ≤ 2 ^ 24 - 1 := by
  refine ⟨Nat.zero_le _, ?_⟩
  show (adjustAll cfg deltas ( up_timer_initialize cfg s)).systick_reload ≤ 2 ^ 24 - 1
  have key : ∀ (ds : List Int) (st : State), st.systick_reload ≤ 2 ^ 24 - 1 →
      (adjustAll cfg ds st).systick_reload ≤ 2 ^ 24 - 1 := by
    intro ds
    induction ds with
    | nil => intro st h; simpa [adjustAll] using h
    | cons d ds ih =>
      intro st _
      have hstep := adj_reload_le cfg d st
      simp only [SYSTICK_MAX] at hstep
      have := ih (up_adj_timer_period cfg d st) (by omega)
      simpa [adjustAll] using this
  apply key
  rw [init_reload]
  have hw := toU32_of_range (SYSTICK_RELOAD cfg) hlo (by simp only [SYSTICK_MAX] at hhi; omega)
  simp only [SYSTICK_MAX] at hhi
  omega

/-- Witness of C6: four requests, two of them with a candidate out of range,
at 16 MHz and 100 Hz. -/
theorem C6_reload_register_range_witness :
    getreg32 .NVIC_SYSTICK_RELOAD
        (adjustAll exampleConfig [250, -20000, 2000000, 0]
          ( up_timer_initialize exampleConfig resetState))
      ≤ 2 ^ 24 - 1 :=
  (C6_reload_register_range exampleConfig resetState [250, -20000, 2000000, 0]
    (by decide) (by decide)).2

/-- C7: under a valid configuration, whatever the reload register held
before, `up_adj_timer_period(0)` leaves `SYSTICK_RELOAD` in it, and a second
call leaves the state of the first. -/
theorem C7_zero_resets (cfg : Config) (s : State)
    (hlo : 0 ≤ SYSTICK_RELOAD cfg) (hhi : SYSTICK_RELOAD cfg ≤ (SYSTICK_MAX : Int)) :
    ((getreg32 .NVIC_SYSTICK_RELOAD (up_adj_timer_period cfg 0 s) : Nat) : Int)
        = SYSTICK_RELOAD cfg
    ∧ up_adj_timer_period cfg 0 (up_adj_timer_period cfg 0 s) = up_adj_timer_period cfg 0 s := by
  constructor
  · show (((up_adj_timer_period cfg 0 s).systick_reload : Nat) : Int) = _
    exact adj_reload_zero cfg s hlo (by simpa [SYSTICK_MAX] using hhi)
  · simp [up_adj_timer_period, putreg32]

/-- Witness of C7: a reset after an earlier adjustment at 16 MHz and
100 Hz. -/
theorem C7_zero_resets_witness :
    ((getreg32 .NVIC_SYSTICK_RELOAD
        (up_adj_timer_period exampleConfig 0
          (up_adj_timer_period exampleConfig 250 resetState)) : Nat) : Int)
      = SYSTICK_RELOAD exampleConfig :=
  (C7_zero_resets exampleConfig (up_adj_timer_period exampleConfig 250 resetState)
    (by decide) (by decide)).1

/-- C8: with a timer clock of at least 1 MHz and a valid configuration, for
every request whose candidate (for a non-zero request) stays in
`[0, 2^24 - 1]`, `up_get_timer_period` called right after
`up_adj_timer_period` returns a period `p` with
`nominal + delta - 1 <= p <= nominal + delta`, where `nominal` is
`(SYSTICK_RELOAD + 1) / (STM32_HCLK_FREQUENCY / 1000000)`: it differs from
`nominal + delta` by at most one microsecond. -/
theorem C8_round_trip (cfg : Config) (d : Int) (s : State)
    (hclk : 1000000 ≤ cfg.STM32_HCLK_FREQUENCY)
    (hlo : 0 ≤ SYSTICK_RELOAD cfg) (hhi : SYSTICK_RELOAD cfg ≤ 2 ^ 24 - 1)
    (hcand : d ≠ 0 → 0 ≤ candidateReload cfg d ∧ candidateReload cfg d ≤ 2 ^ 24 - 1) :
    ∃ p : Int,
      up_get_timer_period cfg (up_adj_timer_period cfg d s)
          = some (p, up_adj_timer_period cfg d s)
      ∧ nominalPeriod cfg + d - 1 ≤ p ∧ p ≤ nominalPeriod cfg + d
      ∧ |p - (nominalPeriod cfg + d)| ≤ 1 := by
  have hkN : 0 < cfg.STM32_HCLK_FREQUENCY / 1000000 := by omega
  have hle := adj_reload_le cfg d s
  simp only [SYSTICK_MAX] at hle
  refine ⟨_, get_period_value cfg _ hclk (by omega), ?_⟩
  -- the register content after the call, as an integer
  have hreg : (((up_adj_timer_period cfg d s).systick_reload : Nat) : Int)
      = if d = 0 then SYSTICK_RELOAD cfg
        else SYSTICK_RELOAD cfg + (((cfg.STM32_HCLK_FREQUENCY / 1000000 : Nat) : Int) * d - 1) := by
    by_cases hd : d = 0
    · subst hd
      rw [if_pos rfl]
      exact adj_reload_zero cfg s hlo hhi
    · rw [if_neg hd]
      exact adj_reload_in_range cfg d s hd (hcand hd).1 (hcand hd).2
  unfold nominalPeriod
  generalize cfg.STM32_HCLK_FREQUENCY / 1000000 = k at hkN hreg ⊢
  have hk : (0 : Int) < (k : Int) := by exact_mod_cast hkN
  have hn1 : SYSTICK_RELOAD cfg / (k : Int) ≤ (SYSTICK_RELOAD cfg + 1) / (k : Int) :=
    Int.ediv_le_ediv hk (by omega)
  have hn2 : (SYSTICK_RELOAD cfg + 1) / (k : Int) ≤ SYSTICK_RELOAD cfg / (k : Int) + 1 := by
    have h := Int.ediv_le_ediv hk
      (show SYSTICK_RELOAD cfg + 1 ≤ SYSTICK_RELOAD cfg + (k : Int) * 1 by omega)
    rwa [Int.add_mul_ediv_left _ _ (ne_of_gt hk)] at h
  have hp : ((((up_adj_timer_period cfg d s).systick_reload + 1) / k : Nat) : Int)
      = if d = 0 then (SYSTICK_RELOAD cfg + 1) / (k : Int)
        else SYSTICK_RELOAD cfg / (k : Int) + d := by
    rw [Int.ofNat_ediv, Int.ofNat_add, Int.ofNat_one, hreg]
    by_cases hd : d = 0
    · rw [if_pos hd, if_pos hd]
    · rw [if_neg hd, if_neg hd]
      rw [show SYSTICK_RELOAD cfg + ((k : Int) * d - 1) + 1 = SYSTICK_RELOAD cfg + (k : Int) * d
        by ring, Int.add_mul_ediv_left _ _ (ne_of_gt hk)]
  rw [hp]
  by_cases hd : d = 0
  · subst hd
    rw [if_pos rfl]
    refine ⟨by omega, by omega, ?_⟩
    rw [abs_le]
    constructor <;> omega
  · rw [if_neg hd]
    refine ⟨by omega, by omega, ?_⟩
    rw [abs_le]
    constructor <;> omega

/-- Witness of C8: a request of 250 microseconds at 16 MHz and 100 Hz. -/
theorem C8_round_trip_witness :
    ∃ p : Int,
      up_get_timer_period exampleConfig (up_adj_timer_period exampleConfig 250 resetState)
          = some (p, up_adj_timer_period exampleConfig 250 resetState)
      ∧ nominalPeriod exampleConfig + 250 - 1 ≤ p ∧ p ≤ nominalPeriod exampleConfig + 250
      ∧ |p - (nominalPeriod exampleConfig + 250)| ≤ 1 :=
  C8_round_trip exampleConfig 250 resetState (by decide) (by decide) (by decide)
    (fun _ => ⟨by decide, by decide⟩)

/-- C9: for a timer clock of at least 1 MHz, `up_get_timer_period` returns
`(reload + 1) / (STM32_HCLK_FREQUENCY / 1000000)` with truncating division for
every content `reload` of the reload register in `[0, 2^24 - 1]`, and hands the
hardware state back unchanged; right after `up_timer_initialize` under a valid
configuration it returns the nominal period
`(SYSTICK_RELOAD + 1) / (STM32_HCLK_FREQUENCY / 1000000)`, which is 10000
microseconds at 16 MHz and 100 ticks per second. -/
theorem C9_get_period (cfg : Config) (s : State)
    (hclk : 1000000 ≤ cfg.STM32_HCLK_FREQUENCY) :
    (getreg32 .NVIC_SYSTICK_RELOAD s ≤ 2 ^ 24 - 1 →
        up_get_timer_period cfg s
          = some ((((getreg32 .NVIC_SYSTICK_RELOAD s + 1)
              / (cfg.STM32_HCLK_FREQUENCY / 1000000) : Nat) : Int), s))
    ∧ (0 ≤ SYSTICK_RELOAD cfg → SYSTICK_RELOAD cfg ≤ 2 ^ 24 - 1 →
        up_get_timer_period cfg ( up_timer_initialize cfg s)
          = some ((SYSTICK_RELOAD cfg + 1) / ((cfg.STM32_HCLK_FREQUENCY / 1000000 : Nat) : Int),
              up_timer_initialize cfg s))
    ∧ up_get_timer_period exampleConfig ( up_timer_initialize exampleConfig s)
        = some (10000, up_timer_initialize exampleConfig s) := by
  have hinit : ∀ c : Config, 1000000 ≤ c.STM32_HCLK_FREQUENCY →
      0 ≤ SYSTICK_RELOAD c → SYSTICK_RELOAD c ≤ 2 ^ 24 - 1 →
      up_get_timer_period c ( up_timer_initialize c s)
        = some ((SYSTICK_RELOAD c + 1) / ((c.STM32_HCLK_FREQUENCY / 1000000 : Nat) : Int),
            up_timer_initialize c s) := by
    intro c hc hlo hhi
    have hw := toU32_of_range (SYSTICK_RELOAD c) hlo (by omega)
    have hr := init_reload c s
    rw [get_period_value c _ hc (by omega), Int.ofNat_ediv]
    push_cast
    rw [hr, hw]
  refine ⟨?_, hinit cfg hclk, ?_⟩
  · intro hreg
    exact get_period_value cfg s hclk (by simp only [getreg32] at hreg; omega)
  · rw [hinit exampleConfig (by decide) (by decide) (by decide)]
    rfl

/-- Witness of C9: the period read back from the reset state and after
initialisation at 16 MHz and 100 Hz. -/
theorem C9_get_period_witness :
    up_get_timer_period exampleConfig resetState = some (0, resetState)
    ∧ up_get_timer_period exampleConfig ( up_timer_initialize exampleConfig resetState)
        = some (10000, up_timer_initialize exampleConfig resetState) :=
  ⟨(C9_get_period exampleConfig resetState (by decide)).1 (by decide),
   (C9_get_period exampleConfig resetState (by decide)).2.2⟩

/-- C10: `up_adj_timer_period` changes the reload register and nothing else:
the current countdown value, the control register, the system-handler priority
register and the interrupt attachment and enable state are those of before.
In the countdown-and-autoreload model, from a current value `c` the timer
therefore still expires at pulse `c + 1`, exactly as without the adjustment,
and the period that starts there runs for the new reload value plus one. -/
theorem C10_adjust_touches_reload_only (cfg : Config) (d : Int) (s : State) :
    getreg32 .NVIC_SYSTICK_CURRENT (up_adj_timer_period cfg d s)
        = getreg32 .NVIC_SYSTICK_CURRENT s
    ∧ getreg32 .NVIC_SYSTICK_CTRL (up_adj_timer_period cfg d s) = getreg32 .NVIC_SYSTICK_CTRL s
    ∧ getreg32 .NVIC_SYSH12_15_PRIORITY (up_adj_timer_period cfg d s)
        = getreg32 .NVIC_SYSH12_15_PRIORITY s
    ∧ (up_adj_timer_period cfg d s).systick_attached = s.systick_attached
    ∧ (up_adj_timer_period cfg d s).systick_irq_enabled = s.systick_irq_enabled
    ∧ up_adj_timer_period cfg d s
        = { s with systick_reload := (up_adj_timer_period cfg d s).systick_reload }
    ∧ (countdownRun (s.systick_current + 1) s).2
        = List.replicate s.systick_current false ++ [true]
    ∧ (countdownRun (s.systick_current + 1) (up_adj_timer_period cfg d s)).2
        = List.replicate s.systick_current false ++ [true]
    ∧ (countdownRun (s.systick_current + 1) (up_adj_timer_period cfg d s)).1.systick_current
        = (up_adj_timer_period cfg d s).systick_reload
    ∧ (countdownRun
          ((s.systick_current + 1) + ((up_adj_timer_period cfg d s).systick_reload + 1))
          (up_adj_timer_period cfg d s)).2
        = (List.replicate s.systick_current false ++ [true])
          ++ (List.replicate (up_adj_timer_period cfg d s).systick_reload false ++ [true]) := by
  have hframe := adj_frame cfg d s
  have hcur : (up_adj_timer_period cfg d s).systick_current = s.systick_current := by
    rw [hframe]
  have h1 := countdownRun_to_expiry s.systick_current s rfl
  have h2 := countdownRun_to_expiry s.systick_current (up_adj_timer_period cfg d s) hcur
  have h3 := countdownRun_to_expiry (up_adj_timer_period cfg d s).systick_reload
    { up_adj_timer_period cfg d s with
      systick_current := (up_adj_timer_period cfg d s).systick_reload } rfl
  refine ⟨hcur, ?_, ?_, ?_, ?_, hframe, ?_, ?_, ?_, ?_⟩
  · simp [up_adj_timer_period, putreg32, getreg32]
  · simp [up_adj_timer_period, putreg32, getreg32]
  · simp [up_adj_timer_period, putreg32]
  · simp [up_adj_timer_period, putreg32]
  · rw [h1]
  · rw [h2]
  · rw [h2]
  · rw [countdownRun_add, h2, h3]

end Stm32Timerisr
